import Mathlib

/-!
Shallow embedding of `src/components/CameraCapture.tsx` (the Capture Session).

The component is single-threaded and event-driven.  We model it as a state
machine: the React state hooks (`error`, `isLoading`, `isReady`, `mode`,
`facingMode`) and the refs (`streamRef`, `mountedRef`, `requestRef`,
`videoRef.srcObject`) become fields of a state record, and every way control
can enter the component (a synchronous call of `startCamera`, the resolution
of a pending `getUserMedia` promise, the firing of a scheduled
`requestAnimationFrame` callback, `onloadedmetadata`, the resolution of
`video.play()`, a click on the capture button, a mode-toggle click, a file
selection, `FileReader.onloadend`, the `visibilitychange` handler, unmount)
becomes an event.  Pending asynchronous operations (in-flight `getUserMedia`
requests, the registered `onloadedmetadata` handler, pending `play()`
promises, pending file reads, the scheduled animation frame) are explicit
fields, so that interleavings of their resolutions are expressible.

Externally observable effects are logged in the state: `running` is the set
(as a duplicate-free list) of stream ids whose media tracks are live
(`track.stop()` removes a stream from it; tracks are modelled at stream
granularity since the code always stops all tracks of a stream together),
`consumer` is the sequence of `onCapture` invocations, `canvasOps` the
sequence of canvas raster operations, and `decoderCalls` the number of
invocations of the `jsQR` decoder.

React semantics used by the embedding:
* `setState` on an unmounted component is discarded, so writes to React
  state fields are guarded by `mounted`;
* the effect `useEffect(..., [mode, isReady, scanQRCode])` re-runs exactly
  when `mode` or `isReady` changed in a commit (the other dependencies are
  referentially stable), its cleanup cancels the pending animation frame and
  its body re-arms it iff `mode = qr ∧ isReady`; this is folded into each
  event as `scanEffect`, applied when the event changed `mode` or `isReady`;
* an animation-frame callback can only fire while its registration is
  pending, and firing consumes the registration.
-/

namespace CameraCapture

/-- `type ScanMode = 'card' | 'qr'`. -/
inductive Mode
  | card
  | qr
deriving DecidableEq, Repr

/-- The second argument of the consumer callback `onCapture`. -/
inductive Kind
  | image
  | qr
deriving DecidableEq, Repr

/-- `facingMode` state: `'environment' | 'user'`. -/
inductive Facing
  | environment
  | user
deriving DecidableEq, Repr

/-- The failure signal of a rejected `getUserMedia` call (the DOMException
name).  The component catches it as `err: any`; the handler never inspects
it (it is only logged), which is what the embedding reflects. -/
inductive MediaErr
  | notAllowed
  | notFound
  | notReadable
  | overconstrained
  | other
deriving DecidableEq, Repr

/-- Environment data of one video frame as seen by a handler: the video
element's `readyState`, `videoWidth`/`videoHeight`, whether
`canvas.getContext('2d')` returns a context, what `jsQR` would return on the
frame's pixels, and what `canvas.toDataURL` would return for the drawn
frame. -/
structure Frame where
  readyState : Nat
  ctxOk : Bool
  w : Nat
  h : Nat
  qr : Option String
  dataURL : String
deriving DecidableEq, Repr

/-- `video.HAVE_ENOUGH_DATA`. -/
def HAVE_ENOUGH_DATA : Nat := 4

/-- Raster operations performed on the hidden canvas. The quality argument
of `toDataURL` is recorded in hundredths: the source passes `0.85`, recorded
as `85`. -/
inductive CanvasOp
  | setSize (w h : Nat)
  | drawImage (w h : Nat)
  | toDataURL (mime : String) (qualityPct : Nat)
deriving DecidableEq, Repr

/-- The session state: React state hooks, refs, pending async operations and
the log of externally observable effects. -/
structure S where
  /-- `mountedRef.current`. -/
  mounted : Bool
  /-- React state `mode`. -/
  mode : Mode
  /-- React state `isReady`. -/
  isReady : Bool
  /-- React state `isLoading`. -/
  isLoading : Bool
  /-- React state `error` (empty string means no error). -/
  error : String
  /-- React state `facingMode`. -/
  facing : Facing
  /-- `streamRef.current` (stream id). -/
  streamRef : Option Nat
  /-- `videoRef.current.srcObject` (stream id). -/
  videoSrc : Option Nat
  /-- whether the animation-frame registration held in `requestRef.current`
  is still scheduled (not yet fired, not cancelled). -/
  rafPending : Bool
  /-- in-flight `getUserMedia({video: {facingMode}, audio: false})`
  requests, oldest first, each recording the facing constraint it carried. -/
  pendingPrimary : List Facing
  /-- number of in-flight fallback `getUserMedia({video: true, audio:
  false})` requests. -/
  pendingFallback : Nat
  /-- the stream id bound by the currently registered `onloadedmetadata`
  handler (property assignment: a later registration overwrites). -/
  pendingMeta : Option Nat
  /-- pending `video.play()` promises, oldest first. -/
  pendingPlay : List Nat
  /-- number of pending `FileReader.readAsDataURL` reads. -/
  pendingReads : Nat
  /-- fresh-id counter for streams created by the device provider. -/
  nextStream : Nat
  /-- ids of streams whose tracks are live (not yet stopped). -/
  running : List Nat
  /-- log of `onCapture(payload, kind)` invocations. -/
  consumer : List (String × Kind)
  /-- log of canvas raster operations. -/
  canvasOps : List CanvasOp
  /-- number of invocations of the `jsQR` decoder. -/
  decoderCalls : Nat
deriving DecidableEq, Repr

/-- The `<video>` element is rendered (and its ref non-null) iff the
component is mounted and no error is shown: the JSX renders
`error ? <error panel> : <video .../>`. -/
def videoElPresent (s : S) : Bool := s.mounted && s.error == ""

/-- The `<canvas>` element is always rendered while mounted. -/
def canvasElPresent (s : S) : Bool := s.mounted

/-- `stopCamera` (lines 25–40): cancels the animation-frame registration,
stops (and disables) every track of the held stream, nulls `streamRef`,
detaches `video.srcObject`, and calls `setIsReady(false)` — the latter a
React state write, hence discarded when unmounted. -/
def stopCamera (s : S) : S :=
  { s with
    rafPending := false
    running := match s.streamRef with
      | some k => s.running.erase k
      | none => s.running
    streamRef := none
    videoSrc := none
    isReady := if s.mounted then false else s.isReady }

/-- Body of the effect `useEffect(..., [mode, isReady, scanQRCode])`
(lines 74–83) together with its cleanup: the cleanup cancels the pending
animation frame, the body re-arms it iff `mode = qr ∧ isReady`. -/
def scanEffect (s : S) : S :=
  if s.mode = Mode.qr ∧ s.isReady = true then { s with rafPending := true }
  else { s with rafPending := false }

/-- `scanQRCode` (lines 42–72), the body of a fired animation-frame
callback.  `f` is the environment data of the current frame. -/
def scanQRCode (s : S) (f : Frame) : S :=
  -- if (mode !== 'qr' || !videoRef.current || !canvasRef.current || !isReady) return;
  if s.mode ≠ Mode.qr ∨ videoElPresent s = false ∨ canvasElPresent s = false
      ∨ s.isReady = false then s
  else if f.readyState = HAVE_ENOUGH_DATA then
    -- canvas.width = video.videoWidth; canvas.height = video.videoHeight;
    let s1 : S := { s with canvasOps := s.canvasOps ++ [CanvasOp.setSize f.w f.h] }
    if f.ctxOk then
      -- ctx.drawImage(...); getImageData(...); jsQR(imageData.data, w, h, ...)
      let s2 : S := { s1 with
        canvasOps := s1.canvasOps ++ [CanvasOp.drawImage f.w f.h]
        decoderCalls := s1.decoderCalls + 1 }
      match f.qr with
      | some codeData =>
          -- navigator.vibrate(200); stopCamera(); onCapture(code.data, 'qr'); return;
          let s3 := stopCamera s2
          { s3 with consumer := s3.consumer ++ [(codeData, Kind.qr)] }
      | none =>
          -- requestRef.current = requestAnimationFrame(scanQRCode);
          { s2 with rafPending := true }
    else { s1 with rafPending := true }
  else { s with rafPending := true }

/-- The continuation of `startCamera` after a `getUserMedia` promise
resolved with stream `k` (lines 122–143): the mounted check that stops the
fresh stream's tracks when the component is gone, otherwise storing the
stream (overwriting `streamRef` without stopping a previously stored
stream), binding it to the preview surface when the video element exists,
and registering `onloadedmetadata`. -/
def gotStream (s : S) (k : Nat) : S :=
  -- if (!mountedRef.current) { stream.getTracks().forEach(t => t.stop()); return; }
  if s.mounted = false then { s with running := s.running.erase k }
  else
    let s1 : S := { s with streamRef := some k }
    -- if (videoRef.current) { videoRef.current.srcObject = stream; ... onloadedmetadata = ... }
    if videoElPresent s1 then { s1 with videoSrc := some k, pendingMeta := some k }
    else s1

/-- The synchronous prefix of `startCamera` (lines 85–112): the mounted
guard, the synchronous teardown of any held stream, the state resets, the
secure-context and API-support checks, and — when both pass — the issue of
the primary `getUserMedia` request.  `secure` stands for
`hostname === 'localhost' || isSecureContext` and `apiOk` for
`!!navigator.mediaDevices?.getUserMedia`. -/
def startCameraSync (s : S) (secure apiOk : Bool) : S :=
  if s.mounted = false then s
  else
    let s1 := stopCamera s
    -- setError(''); setIsLoading(true); setIsReady(false);  (mounted here)
    let s2 : S := { s1 with error := "", isLoading := true, isReady := false }
    if secure = false then
      { s2 with error := "App requires HTTPS. Please check your URL.", isLoading := false }
    else if apiOk = false then
      { s2 with error := "Camera API not supported on this browser.", isLoading := false }
    else
      -- stream = await navigator.mediaDevices.getUserMedia({video: {facingMode}, audio: false})
      { s2 with pendingPrimary := s2.pendingPrimary ++ [s2.facing] }

/-- `handleCapture` (lines 184–204). -/
def handleCapture (s : S) (f : Frame) : S :=
  -- if (mode === 'qr') return;
  if s.mode = Mode.qr then s
  -- if (videoRef.current && canvasRef.current && isReady)
  else if videoElPresent s && canvasElPresent s && s.isReady then
    -- if (video.videoWidth === 0 || video.videoHeight === 0) return;
    if f.w = 0 ∨ f.h = 0 then s
    else
      -- canvas.width = video.videoWidth; canvas.height = video.videoHeight;
      let s1 : S := { s with canvasOps := s.canvasOps ++ [CanvasOp.setSize f.w f.h] }
      if f.ctxOk then
        -- drawImage; const imageData = canvas.toDataURL('image/jpeg', 0.85);
        let s2 : S := { s1 with canvasOps := s1.canvasOps ++
          [CanvasOp.drawImage f.w f.h, CanvasOp.toDataURL "image/jpeg" 85] }
        -- stopCamera(); onCapture(imageData, 'image');
        let s3 := stopCamera s2
        { s3 with consumer := s3.consumer ++ [(f.dataURL, Kind.image)] }
      else s1
  else s

/-- What the JSX renders for the given state: visibility/enabledness of the
interactive controls (lines 219–409). -/
structure Rendered where
  uploadVisible : Bool
  uploadEnabled : Bool
  captureButtonShown : Bool
  captureButtonEnabled : Bool
  retakeEnabled : Bool
  errorShown : Bool
  videoShown : Bool
deriving DecidableEq, Repr

/-- The render function, restricted to the controls the claims mention:
the upload label gets `opacity-0 pointer-events-none` and its input
`disabled={mode === 'qr'}` in qr mode; the capture button is shown in card
mode and `disabled={!isReady || !!error}`; the retake button is
`disabled={isLoading}`; the error panel replaces the video element. -/
def render (s : S) : Rendered :=
  { uploadVisible := !(s.mode == Mode.qr)
    uploadEnabled := !(s.mode == Mode.qr)
    captureButtonShown := s.mode == Mode.card
    captureButtonEnabled := s.isReady && s.error == ""
    retakeEnabled := !s.isLoading
    errorShown := !(s.error == "")
    videoShown := s.error == "" }

/-- The events through which control enters the component. -/
inductive Ev
  /-- a call of `startCamera` (initial mount effect, the retake/retry
  buttons, or the visibility-regained timeout); `secure`/`apiOk` are the
  environment answers to the two synchronous checks. -/
  | startSync (secure apiOk : Bool)
  /-- the oldest in-flight primary `getUserMedia` resolves: `none` is
  success (a fresh stream is created with live tracks), `some e` rejection
  with signal `e`. -/
  | primaryRes (res : Option MediaErr)
  /-- an in-flight fallback `getUserMedia` resolves. -/
  | fallbackRes (res : Option MediaErr)
  /-- the registered `onloadedmetadata` handler fires. -/
  | metadataFires
  /-- the oldest pending `video.play()` promise settles (`ok` iff it
  fulfilled). -/
  | playRes (ok : Bool)
  /-- the scheduled animation frame fires with frame data `f`. -/
  | frame (f : Frame)
  /-- the capture button is clicked while the current frame is `f`. -/
  | captureClick (f : Frame)
  /-- the Card Scanner mode button is clicked. -/
  | setModeCard
  /-- the QR Code mode button is clicked. -/
  | setModeQr
  /-- the file input's `onChange` fires (`hasFile`: a file was selected). -/
  | fileSelect (hasFile : Bool)
  /-- the oldest pending `FileReader` read completes with data URI `d`. -/
  | fileRes (d : String)
  /-- `visibilitychange` fires with `document.hidden = true`. -/
  | visHidden
  /-- the component unmounts (effect cleanups run). -/
  | unmount
deriving DecidableEq, Repr

/-- The raw handler of each event, before folding in the scan-loop
effect. -/
def handle (s : S) (e : Ev) : S :=
  match e with
  | Ev.startSync secure apiOk => startCameraSync s secure apiOk
  | Ev.primaryRes res =>
    match s.pendingPrimary with
    | [] => s
    | _ :: rest =>
      let s1 : S := { s with pendingPrimary := rest }
      match res with
      | none =>
          -- the provider created a stream whose tracks are live
          let k := s1.nextStream
          gotStream { s1 with nextStream := k + 1, running := s1.running ++ [k] } k
      | some _ =>
          -- catch: console.warn(...); retry with {video: true, audio: false}
          { s1 with pendingFallback := s1.pendingFallback + 1 }
  | Ev.fallbackRes res =>
    match s.pendingFallback with
    | 0 => s
    | n + 1 =>
      let s1 : S := { s with pendingFallback := n }
      match res with
      | none =>
          let k := s1.nextStream
          gotStream { s1 with nextStream := k + 1, running := s1.running ++ [k] } k
      | some _ =>
          -- outer catch (lines 144–149): if (!mountedRef.current) return;
          if s1.mounted = false then s1
          else { s1 with isLoading := false,
                         error := "Camera permission denied or not found." }
  | Ev.metadataFires =>
    match s.pendingMeta with
    | none => s
    | some k =>
      let s1 : S := { s with pendingMeta := none }
      -- if (!mountedRef.current) return;
      if s1.mounted = false then s1
      -- await videoRef.current?.play();
      else { s1 with pendingPlay := s1.pendingPlay ++ [k] }
  | Ev.playRes ok =>
    match s.pendingPlay with
    | [] => s
    | _ :: rest =>
      let s1 : S := { s with pendingPlay := rest }
      -- the source has no mounted check after the await; React discards
      -- setState on an unmounted component, which the guards reflect
      if ok then
        if s1.mounted then { s1 with isReady := true, isLoading := false } else s1
      else
        if s1.mounted then
          { s1 with error := "Tap \x27Retake\x27 to enable camera access",
                    isLoading := false }
        else s1
  | Ev.frame f =>
      -- a callback fires only while scheduled; firing consumes the slot
      if s.rafPending then scanQRCode { s with rafPending := false } f else s
  | Ev.captureClick f => handleCapture s f
  | Ev.setModeCard =>
      if s.mounted then { s with mode := Mode.card } else s
  | Ev.setModeQr =>
      if s.mounted then { s with mode := Mode.qr } else s
  | Ev.fileSelect hasFile =>
      -- the input fires only while rendered and enabled (disabled in qr mode)
      if s.mounted && (render s).uploadEnabled && hasFile then
        { s with pendingReads := s.pendingReads + 1 }
      else s
  | Ev.fileRes d =>
    match s.pendingReads with
    | 0 => s
    | n + 1 =>
      -- reader.onloadend (lines 206–217): no mounted check in the source
      let s1 := stopCamera { s with pendingReads := n }
      { s1 with consumer := s1.consumer ++ [(d, Kind.image)] }
  | Ev.visHidden =>
      -- the visibilitychange listener is removed on unmount
      if s.mounted then stopCamera s else s
  | Ev.unmount =>
      if s.mounted = false then s
      else
        -- effect cleanups: cancel the pending frame; mountedRef = false; stopCamera()
        stopCamera { s with mounted := false, rafPending := false }

/-- One event step: the handler followed by the scan-loop effect, which
React re-runs exactly when the commit changed `mode` or `isReady`. -/
def stepEv (s : S) (e : Ev) : S :=
  let t := handle s e
  if s.mode = t.mode ∧ s.isReady = t.isReady then t else scanEffect t

/-- Run a list of events. -/
def run (s : S) : List Ev → S
  | [] => s
  | e :: es => run (stepEv s e) es

/-- The state right after mount, before the mount effect calls
`startCamera` (that call is the explicit event `Ev.startSync`). -/
def initState : S :=
  { mounted := true
    mode := Mode.card
    isReady := false
    isLoading := true
    error := ""
    facing := Facing.environment
    streamRef := none
    videoSrc := none
    rafPending := false
    pendingPrimary := []
    pendingFallback := 0
    pendingMeta := none
    pendingPlay := []
    pendingReads := 0
    nextStream := 0
    running := []
    consumer := []
    canvasOps := []
    decoderCalls := 0 }

/-- Number of in-flight `getUserMedia` requests. -/
def inFlight (s : S) : Nat := s.pendingPrimary.length + s.pendingFallback

/-- Whether an event is an invocation of `startCamera`. -/
def isStartEv : Ev → Bool
  | Ev.startSync _ _ => true
  | _ => false

/-- A trace is serialized from `s` when every `startCamera` invocation in it
happens while no `getUserMedia` request is in flight (stream acquisitions do
not overlap). -/
def serializedFrom (s : S) : List Ev → Bool
  | [] => true
  | e :: es =>
      (!(isStartEv e) || (inFlight s == 0)) && serializedFrom (stepEv s e) es

/-- The list of live streams a state should have: just the held one. -/
def heldList : Option Nat → List Nat
  | some k => [k]
  | none => []

/-- Inductive invariant for serialized traces: at most one `getUserMedia`
request is in flight, no stream is held while one is in flight, and the
streams with live tracks are exactly the held one. -/
def streamInv (s : S) : Prop :=
  inFlight s ≤ 1 ∧ (1 ≤ inFlight s → s.streamRef = none) ∧
    s.running = heldList s.streamRef

/-- Fixture: a ready session in qr mode holding stream 5, scan loop armed. -/
def sQrLive : S :=
  { initState with mode := Mode.qr, isReady := true, isLoading := false,
                   rafPending := true, streamRef := some 5, videoSrc := some 5,
                   running := [5] }

/-- Fixture: a ready session in card mode holding stream 5. -/
def sCardLive : S :=
  { initState with isReady := true, isLoading := false,
                   streamRef := some 5, videoSrc := some 5, running := [5] }

/-- Fixture: a frame on which the decoder finds a code. -/
def frameQr : Frame :=
  { readyState := 4, ctxOk := true, w := 640, h := 480,
    qr := some "QRTEXT", dataURL := "img" }

/-- Fixture: a decodable frame without a QR code. -/
def frameCard : Frame :=
  { readyState := 4, ctxOk := true, w := 640, h := 480,
    qr := none, dataURL := "img" }

/-- Fixture: a frame whose video element is not yet `HAVE_ENOUGH_DATA`. -/
def frameStale : Frame :=
  { readyState := 2, ctxOk := true, w := 640, h := 480,
    qr := some "QRTEXT", dataURL := "img" }

/-- Fixture: a session in the error state with one pending file read. -/
def sErr : S :=
  { initState with error := "Camera permission denied or not found.",
                   isLoading := false, pendingReads := 1 }

/-- Fixture: an unmounted session with one primary request still in
flight (unmount happened while the permission prompt was outstanding). -/
def sGone : S :=
  { initState with mounted := false, pendingPrimary := [Facing.environment] }

/-- The consumer invocations that carried a `"qr"` payload. -/
def qrCalls (l : List (String × Kind)) : List (String × Kind) :=
  l.filter (fun p => p.2 == Kind.qr)

/-- The scan-loop effect only rewrites the animation-frame registration. -/
theorem scanEffect_eq (t : S) :
    scanEffect t =
      { t with rafPending := decide (t.mode = Mode.qr ∧ t.isReady = true) } := by
  unfold scanEffect
  split
  · rename_i h
    simp [decide_eq_true h]
  · rename_i h
    simp [decide_eq_false h]

/-- `stepEv` unfolded. -/
theorem stepEv_eq (s : S) (e : Ev) :
    stepEv s e =
      if s.mode = (handle s e).mode ∧ s.isReady = (handle s e).isReady
      then handle s e else scanEffect (handle s e) := rfl

theorem stepEv_running (s : S) (e : Ev) :
    (stepEv s e).running = (handle s e).running := by
  rw [stepEv_eq]; split
  · rfl
  · rw [scanEffect_eq]

theorem stepEv_streamRef (s : S) (e : Ev) :
    (stepEv s e).streamRef = (handle s e).streamRef := by
  rw [stepEv_eq]; split
  · rfl
  · rw [scanEffect_eq]

theorem stepEv_consumer (s : S) (e : Ev) :
    (stepEv s e).consumer = (handle s e).consumer := by
  rw [stepEv_eq]; split
  · rfl
  · rw [scanEffect_eq]

theorem stepEv_error (s : S) (e : Ev) :
    (stepEv s e).error = (handle s e).error := by
  rw [stepEv_eq]; split
  · rfl
  · rw [scanEffect_eq]

theorem stepEv_isLoading (s : S) (e : Ev) :
    (stepEv s e).isLoading = (handle s e).isLoading := by
  rw [stepEv_eq]; split
  · rfl
  · rw [scanEffect_eq]

theorem stepEv_mode (s : S) (e : Ev) :
    (stepEv s e).mode = (handle s e).mode := by
  rw [stepEv_eq]; split
  · rfl
  · rw [scanEffect_eq]

theorem stepEv_isReady (s : S) (e : Ev) :
    (stepEv s e).isReady = (handle s e).isReady := by
  rw [stepEv_eq]; split
  · rfl
  · rw [scanEffect_eq]

theorem stepEv_mounted (s : S) (e : Ev) :
    (stepEv s e).mounted = (handle s e).mounted := by
  rw [stepEv_eq]; split
  · rfl
  · rw [scanEffect_eq]

theorem stepEv_pendingPrimary (s : S) (e : Ev) :
    (stepEv s e).pendingPrimary = (handle s e).pendingPrimary := by
  rw [stepEv_eq]; split
  · rfl
  · rw [scanEffect_eq]

theorem stepEv_pendingFallback (s : S) (e : Ev) :
    (stepEv s e).pendingFallback = (handle s e).pendingFallback := by
  rw [stepEv_eq]; split
  · rfl
  · rw [scanEffect_eq]

theorem stepEv_pendingMeta (s : S) (e : Ev) :
    (stepEv s e).pendingMeta = (handle s e).pendingMeta := by
  rw [stepEv_eq]; split
  · rfl
  · rw [scanEffect_eq]

theorem stepEv_pendingPlay (s : S) (e : Ev) :
    (stepEv s e).pendingPlay = (handle s e).pendingPlay := by
  rw [stepEv_eq]; split
  · rfl
  · rw [scanEffect_eq]

theorem stepEv_pendingReads (s : S) (e : Ev) :
    (stepEv s e).pendingReads = (handle s e).pendingReads := by
  rw [stepEv_eq]; split
  · rfl
  · rw [scanEffect_eq]

theorem stepEv_canvasOps (s : S) (e : Ev) :
    (stepEv s e).canvasOps = (handle s e).canvasOps := by
  rw [stepEv_eq]; split
  · rfl
  · rw [scanEffect_eq]

theorem stepEv_decoderCalls (s : S) (e : Ev) :
    (stepEv s e).decoderCalls = (handle s e).decoderCalls := by
  rw [stepEv_eq]; split
  · rfl
  · rw [scanEffect_eq]

theorem stepEv_of_same (s : S) (e : Ev) (h1 : (handle s e).mode = s.mode)
    (h2 : (handle s e).isReady = s.isReady) : stepEv s e = handle s e := by
  rw [stepEv_eq, if_pos ⟨h1.symm, h2.symm⟩]

theorem stepEv_rafPending_eq (s : S) (e : Ev) :
    (stepEv s e).rafPending =
      if s.mode = (handle s e).mode ∧ s.isReady = (handle s e).isReady
      then (handle s e).rafPending
      else decide ((handle s e).mode = Mode.qr ∧ (handle s e).isReady = true) := by
  rw [stepEv_eq]
  split
  · rfl
  · rw [scanEffect_eq]

theorem gotStream_error (s : S) (k : Nat) : (gotStream s k).error = s.error := by
  unfold gotStream
  split
  · rfl
  · dsimp only
    split <;> rfl

theorem gotStream_consumer (s : S) (k : Nat) :
    (gotStream s k).consumer = s.consumer := by
  unfold gotStream
  split
  · rfl
  · dsimp only
    split <;> rfl

/-- C7: `stopCamera` is idempotent — on an already-stopped session it
changes nothing — and every call cancels the in-flight scan-loop
registration, stops all tracks of the held stream, detaches the stream from
the preview surface, and (while the component is mounted, i.e. while the
session exists) leaves readiness not equal to ready. -/
theorem c7_stop_idempotent_and_releasing (s : S) :
    stopCamera (stopCamera s) = stopCamera s ∧
    (stopCamera s).rafPending = false ∧
    (stopCamera s).streamRef = none ∧
    (stopCamera s).videoSrc = none ∧
    (s.running.Nodup → ∀ k : Nat, s.streamRef = some k →
      k ∉ (stopCamera s).running) ∧
    (s.mounted = true → (stopCamera s).isReady = false) := by
  refine ⟨?_, rfl, rfl, rfl, ?_, ?_⟩
  · cases hm : s.mounted <;> simp [stopCamera, hm]
  · intro hd k hk hmem
    rw [stopCamera] at hmem
    simp only [hk] at hmem
    exact ((hd.mem_erase_iff).mp hmem).1 rfl
  · intro hm
    simp [stopCamera, hm]

/-- C7 witness: the guarded parts of `c7_stop_idempotent_and_releasing`
hold at the live qr-mode fixture state. -/
theorem c7_witness :
    sQrLive.running.Nodup ∧ sQrLive.streamRef = some 5 ∧
      sQrLive.mounted = true ∧
      (5 : Nat) ∉ (stopCamera sQrLive).running ∧
      (stopCamera sQrLive).isReady = false :=
  ⟨by decide, rfl, rfl,
    (c7_stop_idempotent_and_releasing sQrLive).2.2.2.2.1 (by decide) 5 rfl,
    (c7_stop_idempotent_and_releasing sQrLive).2.2.2.2.2 rfl⟩

/-- C5 counterexample: the claim says distinct provider failure signals
yield distinct classified error reasons (permission-denied vs
device-not-found vs device-busy vs constraints-not-satisfiable vs unknown).
The code maps every failure signal to the single fixed string
"Camera permission denied or not found.": a permission failure and a
device-not-found failure produce the same error reason. -/
theorem c5_counterexample :
    (run initState [Ev.startSync true true,
      Ev.primaryRes (some MediaErr.notAllowed),
      Ev.fallbackRes (some MediaErr.notAllowed)]).error
      = "Camera permission denied or not found." ∧
    (run initState [Ev.startSync true true,
      Ev.primaryRes (some MediaErr.notFound),
      Ev.fallbackRes (some MediaErr.notFound)]).error
      = "Camera permission denied or not found." := ⟨rfl, rfl⟩

/-- C5 amended: if both the facing-mode request and the generic fallback
request fail, `startCamera` transitions the session to the error state, but
with the single fixed reason "Camera permission denied or not found."
regardless of the provider failure signal; no classification into
permission-denied / device-not-found / device-busy /
constraints-not-satisfiable / unknown is performed. -/
theorem c5_error_reason_unclassified (s : S) (e : MediaErr) (n : Nat)
    (hm : s.mounted = true) (hp : s.pendingFallback = n + 1) :
    (stepEv s (Ev.fallbackRes (some e))).error
        = "Camera permission denied or not found." ∧
    (stepEv s (Ev.fallbackRes (some e))).isLoading = false := by
  constructor
  · rw [stepEv_error]; simp [handle, hp, hm]
  · rw [stepEv_isLoading]; simp [handle, hp, hm]

/-- C5 witness: the amended statement holds when a fallback request is in
flight on a mounted session after both requests fail. -/
theorem c5_witness :
    ({ initState with pendingFallback := 1 } : S).mounted = true ∧
    ({ initState with pendingFallback := 1 } : S).pendingFallback = 0 + 1 ∧
    (stepEv { initState with pendingFallback := 1 }
        (Ev.fallbackRes (some MediaErr.notReadable))).error
      = "Camera permission denied or not found." :=
  ⟨rfl, rfl,
    (c5_error_reason_unclassified { initState with pendingFallback := 1 }
      MediaErr.notReadable 0 rfl rfl).1⟩

/-- C6: whenever the primary facing-mode `getUserMedia` request fails —
whatever the failure signal — exactly one generic fallback request is
issued, and no error is surfaced at that point (the error message and the
consumer log are untouched); a successful fallback also surfaces no
error. -/
theorem c6_fallback_before_error (s : S) (e : MediaErr) (c : Facing)
    (rest : List Facing) (m : Nat) :
    (s.pendingPrimary = c :: rest →
      (stepEv s (Ev.primaryRes (some e))).pendingFallback
          = s.pendingFallback + 1 ∧
      (stepEv s (Ev.primaryRes (some e))).pendingPrimary = rest ∧
      (stepEv s (Ev.primaryRes (some e))).error = s.error ∧
      (stepEv s (Ev.primaryRes (some e))).consumer = s.consumer ∧
      (stepEv s (Ev.primaryRes (some e))).running = s.running) ∧
    (s.pendingFallback = m + 1 →
      (stepEv s (Ev.fallbackRes none)).error = s.error ∧
      (stepEv s (Ev.fallbackRes none)).consumer = s.consumer) := by
  constructor
  · intro hp
    refine ⟨?_, ?_, ?_, ?_, ?_⟩
    · rw [stepEv_pendingFallback]; simp [handle, hp]
    · rw [stepEv_pendingPrimary]; simp [handle, hp]
    · rw [stepEv_error]; simp [handle, hp]
    · rw [stepEv_consumer]; simp [handle, hp]
    · rw [stepEv_running]; simp [handle, hp]
  · intro hp
    constructor
    · rw [stepEv_error]; simp [handle, hp, gotStream_error]
    · rw [stepEv_consumer]; simp [handle, hp, gotStream_consumer]

/-- C6 witness: with a primary request in flight that fails with an
overconstrained signal, exactly one fallback request appears and no error
is surfaced. -/
theorem c6_witness :
    ({ initState with pendingPrimary := [Facing.environment] } : S).pendingPrimary
        = Facing.environment :: [] ∧
    (stepEv { initState with pendingPrimary := [Facing.environment] }
        (Ev.primaryRes (some MediaErr.overconstrained))).pendingFallback
      = ({ initState with pendingPrimary := [Facing.environment] } : S).pendingFallback + 1 :=
  ⟨rfl,
    ((c6_fallback_before_error
      { initState with pendingPrimary := [Facing.environment] }
      MediaErr.overconstrained Facing.environment [] 0).1 rfl).1⟩

/-- C9: `handleCapture` produces output only in card mode while ready: in
that case (with a usable 2D context and a nonzero frame) it sizes the
canvas to the frame's native resolution, draws the frame, encodes it with
`toDataURL('image/jpeg', 0.85)` (quality recorded in hundredths), stops the
session (stream released), and invokes the consumer once with the image
data URI; it is a no-op when `mode = qr`, when not ready, or when the frame
has zero width or height; and the consumer log only ever grows from it in
card mode while ready. -/
theorem c9_capture_semantics (s : S) (f : Frame) :
    (s.mode = Mode.card → s.mounted = true → s.error = "" → s.isReady = true →
     f.w ≠ 0 → f.h ≠ 0 → f.ctxOk = true →
      (stepEv s (Ev.captureClick f)).canvasOps
          = s.canvasOps ++ [CanvasOp.setSize f.w f.h, CanvasOp.drawImage f.w f.h,
              CanvasOp.toDataURL "image/jpeg" 85] ∧
      (stepEv s (Ev.captureClick f)).consumer
          = s.consumer ++ [(f.dataURL, Kind.image)] ∧
      (stepEv s (Ev.captureClick f)).streamRef = none ∧
      (s.running.Nodup → ∀ k : Nat, s.streamRef = some k →
        k ∉ (stepEv s (Ev.captureClick f)).running)) ∧
    (s.mode = Mode.qr → stepEv s (Ev.captureClick f) = s) ∧
    (s.isReady = false → stepEv s (Ev.captureClick f) = s) ∧
    (f.w = 0 ∨ f.h = 0 → stepEv s (Ev.captureClick f) = s) ∧
    ((stepEv s (Ev.captureClick f)).consumer ≠ s.consumer →
      s.mode = Mode.card ∧ s.isReady = true) := by
  refine ⟨?_, ?_, ?_, ?_, ?_⟩
  · intro hm hmt he hr hw hh hctx
    refine ⟨?_, ?_, ?_, ?_⟩
    · rw [stepEv_canvasOps]
      simp [handle, handleCapture, videoElPresent, canvasElPresent,
        hm, hmt, he, hr, hw, hh, hctx, stopCamera]
    · rw [stepEv_consumer]
      simp [handle, handleCapture, videoElPresent, canvasElPresent,
        hm, hmt, he, hr, hw, hh, hctx, stopCamera]
    · rw [stepEv_streamRef]
      simp [handle, handleCapture, videoElPresent, canvasElPresent,
        hm, hmt, he, hr, hw, hh, hctx, stopCamera]
    · intro hnd k hk
      rw [stepEv_running]
      have hrun : (handle s (Ev.captureClick f)).running = s.running.erase k := by
        simp [handle, handleCapture, videoElPresent, canvasElPresent,
          hm, hmt, he, hr, hw, hh, hctx, stopCamera, hk]
      rw [hrun]
      intro hmem
      exact ((hnd.mem_erase_iff).mp hmem).1 rfl
  · intro hq
    have h : handle s (Ev.captureClick f) = s := by
      simp [handle, handleCapture, hq]
    rw [stepEv_of_same s _ (by rw [h]) (by rw [h]), h]
  · intro hr
    have h : handle s (Ev.captureClick f) = s := by
      show handleCapture s f = s
      unfold handleCapture
      split
      · rfl
      · rw [if_neg]
        simp [hr]
    rw [stepEv_of_same s _ (by rw [h]) (by rw [h]), h]
  · intro hw
    have h : handle s (Ev.captureClick f) = s := by
      show handleCapture s f = s
      unfold handleCapture
      rcases hw with h0 | h0 <;> simp [h0]
    rw [stepEv_of_same s _ (by rw [h]) (by rw [h]), h]
  · intro hchanged
    rw [stepEv_consumer] at hchanged
    by_contra hcon
    apply hchanged
    show (handleCapture s f).consumer = s.consumer
    unfold handleCapture
    split_ifs with h1 h2 h3 h4
    · rfl
    · rfl
    · exfalso
      apply hcon
      refine ⟨?_, ?_⟩
      · cases hcm : s.mode
        · rfl
        · exact absurd hcm h1
      · simp only [Bool.and_eq_true] at h2
        exact h2.2
    · rfl
    · rfl

/-- C9 witness: the happy-path hypotheses of `c9_capture_semantics` hold at
the ready card-mode fixture, and capture then emits the image payload. -/
theorem c9_witness :
    sCardLive.mode = Mode.card ∧ sCardLive.isReady = true ∧
    (stepEv sCardLive (Ev.captureClick frameCard)).consumer
        = sCardLive.consumer ++ [(frameCard.dataURL, Kind.image)] :=
  ⟨rfl, rfl,
    ((c9_capture_semantics sCardLive frameCard).1 rfl rfl rfl rfl
      (by decide) (by decide) rfl).2.1⟩

/-- C10: a scan-loop iteration (a fired animation-frame callback in qr mode
while ready) invokes the jsQR decoder only when the video element reports
`HAVE_ENOUGH_DATA`; when the frame is not ready, or the 2D context is
unavailable, the decoder is not called, the consumer is not invoked, and
the loop reschedules itself; when the frame is decodable and the context
exists, the decoder is called exactly once. -/
theorem c10_scan_decoder_guards (s : S) (f : Frame)
    (hm : s.mode = Mode.qr) (hmt : s.mounted = true) (he : s.error = "")
    (hr : s.isReady = true) (hraf : s.rafPending = true) :
    (f.readyState ≠ HAVE_ENOUGH_DATA →
      (stepEv s (Ev.frame f)).decoderCalls = s.decoderCalls ∧
      (stepEv s (Ev.frame f)).consumer = s.consumer ∧
      (stepEv s (Ev.frame f)).rafPending = true) ∧
    (f.readyState = HAVE_ENOUGH_DATA → f.ctxOk = false →
      (stepEv s (Ev.frame f)).decoderCalls = s.decoderCalls ∧
      (stepEv s (Ev.frame f)).consumer = s.consumer ∧
      (stepEv s (Ev.frame f)).rafPending = true) ∧
    (f.readyState = HAVE_ENOUGH_DATA → f.ctxOk = true →
      (stepEv s (Ev.frame f)).decoderCalls = s.decoderCalls + 1) := by
  refine ⟨?_, ?_, ?_⟩
  · intro hrs
    refine ⟨?_, ?_, ?_⟩
    · rw [stepEv_decoderCalls]
      simp [handle, hraf, scanQRCode, videoElPresent, canvasElPresent,
        hm, hmt, he, hr, hrs]
    · rw [stepEv_consumer]
      simp [handle, hraf, scanQRCode, videoElPresent, canvasElPresent,
        hm, hmt, he, hr, hrs]
    · rw [stepEv_rafPending_eq]
      simp [handle, hraf, scanQRCode, videoElPresent, canvasElPresent,
        hm, hmt, he, hr, hrs]
  · intro hrs hctx
    refine ⟨?_, ?_, ?_⟩
    · rw [stepEv_decoderCalls]
      simp [handle, hraf, scanQRCode, videoElPresent, canvasElPresent,
        hm, hmt, he, hr, hrs, hctx]
    · rw [stepEv_consumer]
      simp [handle, hraf, scanQRCode, videoElPresent, canvasElPresent,
        hm, hmt, he, hr, hrs, hctx]
    · rw [stepEv_rafPending_eq]
      simp [handle, hraf, scanQRCode, videoElPresent, canvasElPresent,
        hm, hmt, he, hr, hrs, hctx]
  · intro hrs hctx
    rw [stepEv_decoderCalls]
    cases hq : f.qr <;>
      simp [handle, hraf, scanQRCode, videoElPresent, canvasElPresent,
        hm, hmt, he, hr, hrs, hctx, hq, stopCamera]

/-- C10 witness: a stale frame (readyState 2) on the armed qr fixture calls
no decoder, emits nothing, and re-arms the loop. -/
theorem c10_witness :
    frameStale.readyState ≠ HAVE_ENOUGH_DATA ∧
    (stepEv sQrLive (Ev.frame frameStale)).decoderCalls = sQrLive.decoderCalls ∧
    (stepEv sQrLive (Ev.frame frameStale)).rafPending = true :=
  ⟨by decide,
    ((c10_scan_decoder_guards sQrLive frameStale rfl rfl rfl rfl rfl).1
      (by decide)).1,
    ((c10_scan_decoder_guards sQrLive frameStale rfl rfl rfl rfl rfl).1
      (by decide)).2.2⟩

/-- C1: a successful QR decode (in qr mode, loop armed, decodable frame,
context available, decoder returns a code) invokes the consumer exactly
once with `(decodedText, qr)`, atomically releases the held stream (tracks
stopped, `streamRef` cleared), and does not re-arm the scan loop; a
successful card-mode capture invokes the consumer exactly once with
`(imageDataUri, image)` and likewise releases the stream atomically with
the invocation. -/
theorem c1_single_handoff_and_release (s t : S) (f g : Frame) (c : String) :
    (s.mode = Mode.qr → s.mounted = true → s.error = "" → s.isReady = true →
     s.rafPending = true → f.readyState = HAVE_ENOUGH_DATA → f.ctxOk = true →
     f.qr = some c →
      (stepEv s (Ev.frame f)).consumer = s.consumer ++ [(c, Kind.qr)] ∧
      (stepEv s (Ev.frame f)).streamRef = none ∧
      (s.running.Nodup → ∀ k : Nat, s.streamRef = some k →
        k ∉ (stepEv s (Ev.frame f)).running) ∧
      (stepEv s (Ev.frame f)).rafPending = false) ∧
    (t.mode = Mode.card → t.mounted = true → t.error = "" → t.isReady = true →
     g.w ≠ 0 → g.h ≠ 0 → g.ctxOk = true →
      (stepEv t (Ev.captureClick g)).consumer
          = t.consumer ++ [(g.dataURL, Kind.image)] ∧
      (stepEv t (Ev.captureClick g)).streamRef = none ∧
      (t.running.Nodup → ∀ k : Nat, t.streamRef = some k →
        k ∉ (stepEv t (Ev.captureClick g)).running)) := by
  constructor
  · intro hm hmt he hr hraf hrs hctx hq
    refine ⟨?_, ?_, ?_, ?_⟩
    · rw [stepEv_consumer]
      simp [handle, hraf, scanQRCode, videoElPresent, canvasElPresent,
        hm, hmt, he, hr, hrs, hctx, hq, stopCamera]
    · rw [stepEv_streamRef]
      simp [handle, hraf, scanQRCode, videoElPresent, canvasElPresent,
        hm, hmt, he, hr, hrs, hctx, hq, stopCamera]
    · intro hnd k hk
      rw [stepEv_running]
      have hrun : (handle s (Ev.frame f)).running = s.running.erase k := by
        simp [handle, hraf, scanQRCode, videoElPresent, canvasElPresent,
          hm, hmt, he, hr, hrs, hctx, hq, stopCamera, hk]
      rw [hrun]
      intro hmem
      exact ((hnd.mem_erase_iff).mp hmem).1 rfl
    · rw [stepEv_rafPending_eq]
      simp [handle, hraf, scanQRCode, videoElPresent, canvasElPresent,
        hm, hmt, he, hr, hrs, hctx, hq, stopCamera]
  · intro hm hmt he hr hw hh hctx
    refine ⟨?_, ?_, ?_⟩
    · rw [stepEv_consumer]
      simp [handle, handleCapture, videoElPresent, canvasElPresent,
        hm, hmt, he, hr, hw, hh, hctx, stopCamera]
    · rw [stepEv_streamRef]
      simp [handle, handleCapture, videoElPresent, canvasElPresent,
        hm, hmt, he, hr, hw, hh, hctx, stopCamera]
    · intro hnd k hk
      rw [stepEv_running]
      have hrun : (handle t (Ev.captureClick g)).running = t.running.erase k := by
        simp [handle, handleCapture, videoElPresent, canvasElPresent,
          hm, hmt, he, hr, hw, hh, hctx, stopCamera, hk]
      rw [hrun]
      intro hmem
      exact ((hnd.mem_erase_iff).mp hmem).1 rfl

/-- C1 witness: at the armed qr fixture with a decodable code-bearing
frame, the consumer receives exactly the qr payload, the held stream 5 is
stopped, and the loop is not re-armed; likewise for a card capture. -/
theorem c1_witness :
    (stepEv sQrLive (Ev.frame frameQr)).consumer
        = sQrLive.consumer ++ [("QRTEXT", Kind.qr)] ∧
    (stepEv sQrLive (Ev.frame frameQr)).rafPending = false ∧
    (5 : Nat) ∉ (stepEv sQrLive (Ev.frame frameQr)).running ∧
    (stepEv sCardLive (Ev.captureClick frameCard)).streamRef = none :=
  ⟨((c1_single_handoff_and_release sQrLive sCardLive frameQr frameCard
      "QRTEXT").1 rfl rfl rfl rfl rfl rfl rfl rfl).1,
   ((c1_single_handoff_and_release sQrLive sCardLive frameQr frameCard
      "QRTEXT").1 rfl rfl rfl rfl rfl rfl rfl rfl).2.2.2,
   ((c1_single_handoff_and_release sQrLive sCardLive frameQr frameCard
      "QRTEXT").1 rfl rfl rfl rfl rfl rfl rfl rfl).2.2.1 (by decide) 5 rfl,
   ((c1_single_handoff_and_release sQrLive sCardLive frameQr frameCard
      "QRTEXT").2 rfl rfl rfl rfl (by decide) (by decide) rfl).2.1⟩

/-- C8 counterexample: the claim says the file-upload fallback is always
available in every session state, independent of the current mode. In qr
mode the rendered upload label is hidden (`opacity-0 pointer-events-none`)
and the file input is `disabled={mode === 'qr'}`, so the fallback is
unavailable there: a file-selection event in qr mode is a no-op. -/
theorem c8_counterexample :
    (render (run initState [Ev.setModeQr])).uploadEnabled = false ∧
    (render (run initState [Ev.setModeQr])).uploadVisible = false ∧
    stepEv (run initState [Ev.setModeQr]) (Ev.fileSelect true)
      = run initState [Ev.setModeQr] := ⟨rfl, rfl, rfl⟩

/-- C8 amended: the file-upload fallback is enabled exactly in card mode —
independent of readiness and of the error state (its enabledness is a
function of the mode alone) — and a completing file read, in any session
state whatsoever (error state included), stops the session and invokes the
consumer once with `(imageDataUri, image)`. -/
theorem c8_upload_card_mode_only (s : S) (d : String) (n : Nat) :
    ((render s).uploadEnabled = true ↔ s.mode = Mode.card) ∧
    (∀ s1 s2 : S, s1.mode = s2.mode →
      (render s1).uploadEnabled = (render s2).uploadEnabled) ∧
    (s.pendingReads = n + 1 →
      (stepEv s (Ev.fileRes d)).consumer = s.consumer ++ [(d, Kind.image)] ∧
      (stepEv s (Ev.fileRes d)).streamRef = none ∧
      (s.running.Nodup → ∀ k : Nat, s.streamRef = some k →
        k ∉ (stepEv s (Ev.fileRes d)).running)) := by
  refine ⟨?_, ?_, ?_⟩
  · cases hm : s.mode <;> simp [render, hm]
  · intro s1 s2 h12
    simp [render, h12]
  · intro hp
    refine ⟨?_, ?_, ?_⟩
    · rw [stepEv_consumer]
      simp [handle, hp, stopCamera]
    · rw [stepEv_streamRef]
      simp [handle, hp, stopCamera]
    · intro hnd k hk
      rw [stepEv_running]
      have hrun : (handle s (Ev.fileRes d)).running = s.running.erase k := by
        simp [handle, hp, stopCamera, hk]
      rw [hrun]
      intro hmem
      exact ((hnd.mem_erase_iff).mp hmem).1 rfl

/-- C8 witness: in the error-state fixture a completing file read invokes
the consumer with the image payload, readiness notwithstanding. -/
theorem c8_witness :
    sErr.error = "Camera permission denied or not found." ∧
    sErr.pendingReads = 0 + 1 ∧
    (stepEv sErr (Ev.fileRes "dataUri")).consumer
      = sErr.consumer ++ [("dataUri", Kind.image)] :=
  ⟨rfl, rfl, ((c8_upload_card_mode_only sErr "dataUri" 0).2.2 rfl).1⟩

theorem heldList_length_le_one (o : Option Nat) : (heldList o).length ≤ 1 := by
  cases o <;> simp [heldList]

theorem stopCamera_running_inv (s : S) (h : s.running = heldList s.streamRef) :
    (stopCamera s).running = [] := by
  cases ho : s.streamRef with
  | none =>
      rw [ho] at h
      simp [stopCamera, ho, h, heldList]
  | some k =>
      rw [ho] at h
      simp [stopCamera, ho, h, heldList]

theorem streamInv_scanEffect (t : S) : streamInv (scanEffect t) ↔ streamInv t := by
  rw [scanEffect_eq]
  exact Iff.rfl

theorem stepEv_inv (s : S) (e : Ev) (h : streamInv (handle s e)) :
    streamInv (stepEv s e) := by
  rw [stepEv_eq]
  split
  · exact h
  · exact (streamInv_scanEffect _).mpr h

theorem streamInv_step (s : S) (e : Ev) (h : streamInv s)
    (hstart : isStartEv e = true → inFlight s = 0) :
    streamInv (stepEv s e) := by
  apply stepEv_inv
  obtain ⟨h1, h2, h3⟩ := h
  cases e with
  | startSync a b =>
      have hser : inFlight s = 0 := hstart rfl
      show streamInv (startCameraSync s a b)
      unfold startCameraSync
      split
      · exact ⟨h1, h2, h3⟩
      · try dsimp only
        split
        · exact ⟨h1, fun _ => rfl, stopCamera_running_inv s h3⟩
        · split
          · exact ⟨h1, fun _ => rfl, stopCamera_running_inv s h3⟩
          · refine ⟨?_, fun _ => rfl, stopCamera_running_inv s h3⟩
            show (s.pendingPrimary ++ [s.facing]).length + s.pendingFallback ≤ 1
            simp only [inFlight] at hser
            simp only [List.length_append, List.length_cons, List.length_nil]
            omega
  | primaryRes r =>
      show streamInv (handle s (Ev.primaryRes r))
      cases hp : s.pendingPrimary with
      | nil => simp only [handle, hp]; exact ⟨h1, h2, h3⟩
      | cons c rest =>
          have hge : 1 ≤ inFlight s := by simp only [inFlight, hp, List.length_cons]; omega
          have hsr : s.streamRef = none := h2 hge
          have hrun : s.running = [] := by rw [h3, hsr]; rfl
          have hfacts : rest.length = 0 ∧ s.pendingFallback = 0 := by
            simp only [inFlight, hp, List.length_cons] at h1
            omega
          cases r with
          | some err =>
              simp only [handle, hp]
              refine ⟨?_, fun _ => hsr, h3⟩
              show rest.length + (s.pendingFallback + 1) ≤ 1
              omega
          | none =>
              simp only [handle, hp]
              try dsimp only
              unfold gotStream
              split
              · refine ⟨?_, fun _ => hsr, ?_⟩
                · show rest.length + s.pendingFallback ≤ 1
                  omega
                · show (s.running ++ [s.nextStream]).erase s.nextStream
                      = heldList s.streamRef
                  rw [hrun, hsr]
                  simp [heldList, List.erase_cons_head]
              · try dsimp only
                split
                · refine ⟨?_, ?_, ?_⟩
                  · show rest.length + s.pendingFallback ≤ 1
                    omega
                  · intro h0
                    have h0' : 1 ≤ rest.length + s.pendingFallback := h0
                    exact absurd h0' (by omega)
                  · show s.running ++ [s.nextStream] = heldList (some s.nextStream)
                    rw [hrun]
                    simp [heldList]
                · refine ⟨?_, ?_, ?_⟩
                  · show rest.length + s.pendingFallback ≤ 1
                    omega
                  · intro h0
                    have h0' : 1 ≤ rest.length + s.pendingFallback := h0
                    exact absurd h0' (by omega)
                  · show s.running ++ [s.nextStream] = heldList (some s.nextStream)
                    rw [hrun]
                    simp [heldList]
  | fallbackRes r =>
      show streamInv (handle s (Ev.fallbackRes r))
      cases hp : s.pendingFallback with
      | zero => simp only [handle, hp]; exact ⟨h1, h2, h3⟩
      | succ n =>
          have hge : 1 ≤ inFlight s := by simp only [inFlight, hp, List.length_cons]; omega
          have hsr : s.streamRef = none := h2 hge
          have hrun : s.running = [] := by rw [h3, hsr]; rfl
          have hfacts : s.pendingPrimary.length = 0 ∧ n = 0 := by
            simp only [inFlight, hp] at h1
            omega
          cases r with
          | some err =>
              simp only [handle, hp]
              split
              · refine ⟨?_, fun _ => hsr, h3⟩
                show s.pendingPrimary.length + n ≤ 1
                omega
              · refine ⟨?_, fun _ => hsr, h3⟩
                show s.pendingPrimary.length + n ≤ 1
                omega
          | none =>
              simp only [handle, hp]
              try dsimp only
              unfold gotStream
              split
              · refine ⟨?_, fun _ => hsr, ?_⟩
                · show s.pendingPrimary.length + n ≤ 1
                  omega
                · show (s.running ++ [s.nextStream]).erase s.nextStream
                      = heldList s.streamRef
                  rw [hrun, hsr]
                  simp [heldList, List.erase_cons_head]
              · try dsimp only
                split
                · refine ⟨?_, ?_, ?_⟩
                  · show s.pendingPrimary.length + n ≤ 1
                    omega
                  · intro h0
                    have h0' : 1 ≤ s.pendingPrimary.length + n := h0
                    exact absurd h0' (by omega)
                  · show s.running ++ [s.nextStream] = heldList (some s.nextStream)
                    rw [hrun]
                    simp [heldList]
                · refine ⟨?_, ?_, ?_⟩
                  · show s.pendingPrimary.length + n ≤ 1
                    omega
                  · intro h0
                    have h0' : 1 ≤ s.pendingPrimary.length + n := h0
                    exact absurd h0' (by omega)
                  · show s.running ++ [s.nextStream] = heldList (some s.nextStream)
                    rw [hrun]
                    simp [heldList]
  | metadataFires =>
      show streamInv (handle s Ev.metadataFires)
      cases hp : s.pendingMeta with
      | none => simp only [handle, hp]; exact ⟨h1, h2, h3⟩
      | some k =>
          simp only [handle, hp]
          try dsimp only
          split
          · exact ⟨h1, h2, h3⟩
          · exact ⟨h1, h2, h3⟩
  | playRes ok =>
      show streamInv (handle s (Ev.playRes ok))
      cases hp : s.pendingPlay with
      | nil => simp only [handle, hp]; exact ⟨h1, h2, h3⟩
      | cons k rest =>
          simp only [handle, hp]
          try dsimp only
          split <;> (split <;> exact ⟨h1, h2, h3⟩)
  | frame f =>
      show streamInv (handle s (Ev.frame f))
      simp only [handle]
      split
      · unfold scanQRCode
        split
        · exact ⟨h1, h2, h3⟩
        · split
          · try dsimp only
            split
            · split
              · exact ⟨h1, fun _ => rfl, stopCamera_running_inv s h3⟩
              · exact ⟨h1, h2, h3⟩
            · exact ⟨h1, h2, h3⟩
          · exact ⟨h1, h2, h3⟩
      · exact ⟨h1, h2, h3⟩
  | captureClick f =>
      show streamInv (handleCapture s f)
      unfold handleCapture
      split
      · exact ⟨h1, h2, h3⟩
      · split
        · split
          · exact ⟨h1, h2, h3⟩
          · try dsimp only
            split
            · exact ⟨h1, fun _ => rfl, stopCamera_running_inv s h3⟩
            · exact ⟨h1, h2, h3⟩
        · exact ⟨h1, h2, h3⟩
  | setModeCard =>
      show streamInv (handle s Ev.setModeCard)
      simp only [handle]
      split
      · exact ⟨h1, h2, h3⟩
      · exact ⟨h1, h2, h3⟩
  | setModeQr =>
      show streamInv (handle s Ev.setModeQr)
      simp only [handle]
      split
      · exact ⟨h1, h2, h3⟩
      · exact ⟨h1, h2, h3⟩
  | fileSelect hasFile =>
      show streamInv (handle s (Ev.fileSelect hasFile))
      simp only [handle]
      split
      · exact ⟨h1, h2, h3⟩
      · exact ⟨h1, h2, h3⟩
  | fileRes d =>
      show streamInv (handle s (Ev.fileRes d))
      cases hp : s.pendingReads with
      | zero => simp only [handle, hp]; exact ⟨h1, h2, h3⟩
      | succ n =>
          simp only [handle, hp]
          exact ⟨h1, fun _ => rfl, stopCamera_running_inv s h3⟩
  | visHidden =>
      show streamInv (handle s Ev.visHidden)
      simp only [handle]
      split
      · exact ⟨h1, fun _ => rfl, stopCamera_running_inv s h3⟩
      · exact ⟨h1, h2, h3⟩
  | unmount =>
      show streamInv (handle s Ev.unmount)
      simp only [handle]
      split
      · exact ⟨h1, h2, h3⟩
      · exact ⟨h1, fun _ => rfl, stopCamera_running_inv s h3⟩

theorem streamInv_run (es : List Ev) : ∀ s : S, streamInv s →
    serializedFrom s es = true → streamInv (run s es) := by
  induction es with
  | nil => intro s h _; exact h
  | cons e rest ih =>
      intro s h hser
      simp only [serializedFrom, Bool.and_eq_true] at hser
      obtain ⟨hs1, hs2⟩ := hser
      have hstart : isStartEv e = true → inFlight s = 0 := by
        intro hse
        simp only [hse, Bool.not_true, Bool.false_or, beq_iff_eq] at hs1
        exact hs1
      exact ih _ (streamInv_step s e h hstart) hs2

/-- C2 counterexample: the claim quantifies over every sequence of
start()/stop() calls. When two `startCamera` invocations are in flight at
once (e.g. the visibility-regained timeout racing the retry button) and
both `getUserMedia` requests succeed, each resolution stores its stream
with `streamRef.current = stream` without stopping the other: afterwards
two distinct streams (ids 0 and 1) both have live tracks. -/
theorem c2_counterexample :
    (run initState [Ev.startSync true true, Ev.startSync true true,
      Ev.primaryRes none, Ev.primaryRes none]).running = [0, 1] ∧
    (run initState [Ev.startSync true true, Ev.startSync true true,
      Ev.primaryRes none, Ev.primaryRes none]).running.length = 2 :=
  ⟨rfl, rfl⟩

/-- C2 amended: for every serialized sequence of start()/stop() calls — no
`startCamera` issued while a previous start's `getUserMedia` request is
still in flight — at most one stream has live tracks at any observed
instant (every start first tears down the held stream synchronously, and
no serialized exit path leaves tracks running). -/
theorem c2_serialized_single_stream (es : List Ev)
    (h : serializedFrom initState es = true) :
    (run initState es).running.length ≤ 1 := by
  have h0 : streamInv initState := ⟨by decide, fun _ => rfl, rfl⟩
  obtain ⟨_, _, h3⟩ := streamInv_run es initState h0 h
  rw [h3]
  exact heldList_length_le_one _

/-- C2 witness: a serialized start/resolve/stop trace keeps at most one
live stream. -/
theorem c2_witness :
    serializedFrom initState [Ev.startSync true true, Ev.primaryRes none,
      Ev.visHidden, Ev.startSync true true] = true ∧
    (run initState [Ev.startSync true true, Ev.primaryRes none,
      Ev.visHidden, Ev.startSync true true]).running.length ≤ 1 :=
  ⟨by decide,
    c2_serialized_single_stream
      [Ev.startSync true true, Ev.primaryRes none,
        Ev.visHidden, Ev.startSync true true] (by decide)⟩

/-- C4 counterexample: the claim says every asynchronous suspension point —
file-read completion for uploads included — checks liveness before applying
its result, so teardown never causes a late async result to invoke the
consumer. `reader.onloadend` performs no mounted check: unmounting while a
file read is outstanding still invokes the consumer when the read
completes. -/
theorem c4_counterexample :
    (run initState [Ev.fileSelect true, Ev.unmount]).mounted = false ∧
    (run initState [Ev.fileSelect true, Ev.unmount]).pendingReads = 1 ∧
    (run initState [Ev.fileSelect true, Ev.unmount,
        Ev.fileRes "dataUri"]).consumer = [("dataUri", Kind.image)] :=
  ⟨rfl, rfl, rfl⟩

/-- C4 amended: liveness/mounted checks are performed where the source has
them — after stream negotiation (a stream resolving after unmount has its
tracks stopped and is not applied), after a fallback failure (no error is
applied after unmount), and at metadata load (no playback is started after
unmount) — and unmounting cancels the pending scan frame; but file-read
completion performs no such check (see the counterexample). -/
theorem c4_liveness_checks (s : S) (e : MediaErr) :
    (s.mounted = false → s.nextStream ∉ s.running →
      (stepEv s (Ev.primaryRes none)).consumer = s.consumer ∧
      (stepEv s (Ev.primaryRes none)).streamRef = s.streamRef ∧
      (stepEv s (Ev.primaryRes none)).running = s.running ∧
      (stepEv s (Ev.primaryRes none)).pendingMeta = s.pendingMeta ∧
      (stepEv s (Ev.fallbackRes none)).consumer = s.consumer ∧
      (stepEv s (Ev.fallbackRes none)).running = s.running) ∧
    (s.mounted = false →
      (stepEv s (Ev.fallbackRes (some e))).error = s.error) ∧
    (s.mounted = false →
      (stepEv s Ev.metadataFires).pendingPlay = s.pendingPlay ∧
      (stepEv s Ev.metadataFires).consumer = s.consumer) ∧
    (s.mounted = true →
      (stepEv s Ev.unmount).rafPending = false ∧
      (stepEv s Ev.unmount).consumer = s.consumer) := by
  refine ⟨?_, ?_, ?_, ?_⟩
  · intro hm hns
    have herase : (s.running ++ [s.nextStream]).erase s.nextStream = s.running := by
      rw [List.erase_append_right _ hns, List.erase_cons_head, List.append_nil]
    refine ⟨?_, ?_, ?_, ?_, ?_, ?_⟩
    · rw [stepEv_consumer]
      cases hp : s.pendingPrimary <;>
        simp [handle, hp, gotStream, hm]
    · rw [stepEv_streamRef]
      cases hp : s.pendingPrimary <;>
        simp [handle, hp, gotStream, hm]
    · rw [stepEv_running]
      cases hp : s.pendingPrimary <;>
        simp [handle, hp, gotStream, hm, herase]
    · rw [stepEv_pendingMeta]
      cases hp : s.pendingPrimary <;>
        simp [handle, hp, gotStream, hm]
    · rw [stepEv_consumer]
      cases hp : s.pendingFallback <;>
        simp [handle, hp, gotStream, hm]
    · rw [stepEv_running]
      cases hp : s.pendingFallback <;>
        simp [handle, hp, gotStream, hm, herase]
  · intro hm
    rw [stepEv_error]
    cases hp : s.pendingFallback <;> simp [handle, hp, hm]
  · intro hm
    constructor
    · rw [stepEv_pendingPlay]
      cases hp : s.pendingMeta <;> simp [handle, hp, hm]
    · rw [stepEv_consumer]
      cases hp : s.pendingMeta <;> simp [handle, hp, hm]
  · intro hm
    constructor
    · have h1 : (handle s Ev.unmount).mode = s.mode := by
        simp [handle, hm, stopCamera]
      have h2 : (handle s Ev.unmount).isReady = s.isReady := by
        simp [handle, hm, stopCamera]
      rw [stepEv_of_same s _ h1 h2]
      simp [handle, hm, stopCamera]
    · rw [stepEv_consumer]
      simp [handle, hm, stopCamera]

theorem filter_qr_append_image (l : List (String × Kind)) (d : String) :
    qrCalls (l ++ [(d, Kind.image)]) = qrCalls l := by
  simp [qrCalls]

theorem gotStream_mode (s : S) (k : Nat) : (gotStream s k).mode = s.mode := by
  unfold gotStream
  split
  · rfl
  · dsimp only
    split <;> rfl

theorem startCameraSync_mode (s : S) (a b : Bool) :
    (startCameraSync s a b).mode = s.mode := by
  unfold startCameraSync
  split
  · rfl
  · dsimp only
    split
    · rfl
    · split <;> rfl

theorem startCameraSync_consumer (s : S) (a b : Bool) :
    (startCameraSync s a b).consumer = s.consumer := by
  unfold startCameraSync
  split
  · rfl
  · dsimp only
    split
    · rfl
    · split <;> rfl

theorem scanQRCode_consumer_card (s : S) (f : Frame) (hm : s.mode = Mode.card) :
    (scanQRCode s f).consumer = s.consumer := by
  have hne : s.mode ≠ Mode.qr := by rw [hm]; decide
  unfold scanQRCode
  rw [if_pos (Or.inl hne)]

theorem scanQRCode_mode (s : S) (f : Frame) : (scanQRCode s f).mode = s.mode := by
  unfold scanQRCode
  split
  · rfl
  · split
    · dsimp only
      split
      · split <;> rfl
      · rfl
    · rfl

theorem handleCapture_mode (s : S) (f : Frame) :
    (handleCapture s f).mode = s.mode := by
  unfold handleCapture
  split
  · rfl
  · split
    · split
      · rfl
      · split <;> rfl
    · rfl

theorem handleCapture_qrCalls (s : S) (f : Frame) :
    qrCalls (handleCapture s f).consumer = qrCalls s.consumer := by
  unfold handleCapture
  split
  · rfl
  · split
    · split
      · rfl
      · split
        · exact filter_qr_append_image s.consumer f.dataURL
        · rfl
    · rfl

theorem handle_card_step (s : S) (e : Ev) (hm : s.mode = Mode.card)
    (he : e ≠ Ev.setModeQr) :
    (handle s e).mode = Mode.card ∧
    qrCalls (handle s e).consumer = qrCalls s.consumer := by
  cases e with
  | startSync a b =>
      refine ⟨?_, ?_⟩
      · show (startCameraSync s a b).mode = Mode.card
        rw [startCameraSync_mode, hm]
      · show qrCalls (startCameraSync s a b).consumer = qrCalls s.consumer
        rw [startCameraSync_consumer]
  | primaryRes r =>
      cases hp : s.pendingPrimary with
      | nil => refine ⟨?_, ?_⟩ <;> simp [handle, hp, hm]
      | cons c rest =>
          cases r with
          | none =>
              refine ⟨?_, ?_⟩ <;>
                simp [handle, hp, hm, gotStream_mode, gotStream_consumer]
          | some err => refine ⟨?_, ?_⟩ <;> simp [handle, hp, hm]
  | fallbackRes r =>
      cases hp : s.pendingFallback with
      | zero => refine ⟨?_, ?_⟩ <;> simp [handle, hp, hm]
      | succ n =>
          cases r with
          | none =>
              refine ⟨?_, ?_⟩ <;>
                simp [handle, hp, hm, gotStream_mode, gotStream_consumer]
          | some err =>
              cases hmt : s.mounted <;>
                (refine ⟨?_, ?_⟩ <;> simp [handle, hp, hm, hmt])
  | metadataFires =>
      cases hp : s.pendingMeta with
      | none => refine ⟨?_, ?_⟩ <;> simp [handle, hp, hm]
      | some k =>
          cases hmt : s.mounted <;>
            (refine ⟨?_, ?_⟩ <;> simp [handle, hp, hm, hmt])
  | playRes ok =>
      cases hp : s.pendingPlay with
      | nil => refine ⟨?_, ?_⟩ <;> simp [handle, hp, hm]
      | cons k rest =>
          cases ok <;> cases hmt : s.mounted <;>
            (refine ⟨?_, ?_⟩ <;> simp [handle, hp, hm, hmt])
  | frame f =>
      cases hraf : s.rafPending with
      | false => refine ⟨?_, ?_⟩ <;> simp [handle, hraf, hm]
      | true =>
          have h0 : ({ s with rafPending := false } : S).mode = Mode.card := hm
          have hh : handle s (Ev.frame f)
              = scanQRCode { s with rafPending := false } f := by
            simp [handle, hraf]
          refine ⟨?_, ?_⟩
          · rw [hh, scanQRCode_mode]
            exact hm
          · rw [hh, scanQRCode_consumer_card _ f h0]
  | captureClick f =>
      refine ⟨?_, ?_⟩
      · show (handleCapture s f).mode = Mode.card
        rw [handleCapture_mode, hm]
      · exact handleCapture_qrCalls s f
  | setModeCard =>
      cases hmt : s.mounted <;> (refine ⟨?_, ?_⟩ <;> simp [handle, hmt, hm])
  | setModeQr => exact absurd rfl he
  | fileSelect hasFile =>
      refine ⟨?_, ?_⟩ <;> (simp only [handle]; split <;> simp [hm])
  | fileRes d =>
      cases hp : s.pendingReads with
      | zero => refine ⟨?_, ?_⟩ <;> simp [handle, hp, hm]
      | succ n =>
          refine ⟨?_, ?_⟩
          · simp [handle, hp, hm, stopCamera]
          · simp [handle, hp, stopCamera, qrCalls]
  | visHidden =>
      cases hmt : s.mounted <;>
        (refine ⟨?_, ?_⟩ <;> simp [handle, hmt, hm, stopCamera])
  | unmount =>
      cases hmt : s.mounted <;>
        (refine ⟨?_, ?_⟩ <;> simp [handle, hmt, hm, stopCamera])

theorem stepEv_card_step (s : S) (e : Ev) (hm : s.mode = Mode.card)
    (he : e ≠ Ev.setModeQr) :
    (stepEv s e).mode = Mode.card ∧
    qrCalls (stepEv s e).consumer = qrCalls s.consumer := by
  obtain ⟨h1, h2⟩ := handle_card_step s e hm he
  exact ⟨by rw [stepEv_mode]; exact h1, by rw [stepEv_consumer]; exact h2⟩

theorem run_card_qrCalls (es : List Ev) : ∀ s : S, s.mode = Mode.card →
    Ev.setModeQr ∉ es →
    qrCalls (run s es).consumer = qrCalls s.consumer := by
  induction es with
  | nil => intro s _ _; rfl
  | cons e rest ih =>
      intro s hm hq
      have hne : e ≠ Ev.setModeQr := fun h => hq (by rw [h]; exact List.mem_cons_self _ _)
      obtain ⟨h1, h2⟩ := stepEv_card_step s e hm hne
      have hq2 : Ev.setModeQr ∉ rest := fun h => hq (List.mem_cons_of_mem _ h)
      calc qrCalls (run (stepEv s e) rest).consumer
          = qrCalls (stepEv s e).consumer := ih _ h1 hq2
        _ = qrCalls s.consumer := h2

/-- C3: switching from qr to card cancels the pending scan registration
synchronously (no animation frame remains scheduled) without invoking the
consumer, and as long as the session is not switched back to qr no
subsequent event adds a `"qr"`-kind consumer call; a cancelled scan (a
frame firing with no pending registration) never invokes the consumer. -/
theorem c3_mode_switch_cancels_scan (s : S) (es : List Ev) (f : Frame)
    (hmt : s.mounted = true) (hq : s.mode = Mode.qr) :
    (stepEv s Ev.setModeCard).rafPending = false ∧
    (stepEv s Ev.setModeCard).consumer = s.consumer ∧
    (Ev.setModeQr ∉ es →
      qrCalls (run (stepEv s Ev.setModeCard) es).consumer
        = qrCalls s.consumer) ∧
    (∀ t : S, t.rafPending = false →
      (stepEv t (Ev.frame f)).consumer = t.consumer) := by
  have hmode : (stepEv s Ev.setModeCard).mode = Mode.card := by
    rw [stepEv_mode]; simp [handle, hmt]
  have hcons : (stepEv s Ev.setModeCard).consumer = s.consumer := by
    rw [stepEv_consumer]; simp [handle, hmt]
  refine ⟨?_, hcons, ?_, ?_⟩
  · rw [stepEv_rafPending_eq]
    simp [handle, hmt, hq]
  · intro hq2
    rw [run_card_qrCalls es _ hmode hq2, hcons]
  · intro t ht
    rw [stepEv_consumer]
    simp [handle, ht]

/-- C3 witness: at the armed qr fixture, switching to card leaves no frame
scheduled, and a subsequent decodable frame event adds no qr payload. -/
theorem c3_witness :
    sQrLive.mounted = true ∧ sQrLive.mode = Mode.qr ∧
    (stepEv sQrLive Ev.setModeCard).rafPending = false ∧
    qrCalls (run (stepEv sQrLive Ev.setModeCard) [Ev.frame frameQr]).consumer
      = qrCalls sQrLive.consumer :=
  ⟨rfl, rfl,
    (c3_mode_switch_cancels_scan sQrLive [Ev.frame frameQr] frameQr rfl rfl).1,
    (c3_mode_switch_cancels_scan sQrLive [Ev.frame frameQr] frameQr
      rfl rfl).2.2.1 (by decide)⟩

/-- C4 witness: at the unmounted fixture with an outstanding permission
prompt, the prompt resolving with a stream does not invoke the consumer and
leaves no track running. -/
theorem c4_witness :
    sGone.mounted = false ∧ sGone.nextStream ∉ sGone.running ∧
    (stepEv sGone (Ev.primaryRes none)).consumer = sGone.consumer ∧
    (stepEv sGone (Ev.primaryRes none)).running = sGone.running :=
  ⟨rfl, by decide,
    ((c4_liveness_checks sGone MediaErr.other).1 rfl (by decide)).1,
    ((c4_liveness_checks sGone MediaErr.other).1 rfl (by decide)).2.2.1⟩

end CameraCapture
